import Mathlib

/-!
Verification of the reel-audio-merger pipeline (src/app.py).

The embedding follows the source file:
 - `MergeRequest` and its pydantic parsing (app.py lines 21-27);
 - the clamping of durations and volume (lines 119-121);
 - the fade arithmetic and the ffmpeg command built by
   `_run_ffmpeg_two_videos` (lines 39-86);
 - the Cloudinary upload (lines 89-108);
 - the `merge` orchestrator with its `with tempfile.TemporaryDirectory()`
   block and its blanket `except Exception` handler (lines 111-152).

Python floats are modelled as rationals (ℚ): every constant involved
(1.1, 0.7, 0.15, 58, ...) is far from any comparison tie, so the order
facts proved here are the same in IEEE double and in ℚ.  Python's string
rendering of a float is abstracted as a function `showF : ℚ → String`
passed to every definition that interpolates a float into a string, and
similarly `showJ` stands for Python's rendering of a parsed JSON object.
External effects (HTTP fetches, the ffmpeg subprocess, the upload POST)
are supplied as oracles describing each call's outcome; raised Python
exceptions are `Except.error` values carrying the exception message.
-/

/-- The request model (app.py lines 21-27).  All three URLs are required
fields; the durations and the volume carry pydantic defaults. -/
structure MergeRequest where
  main_video_url : String
  cta_video_url : String
  audio_url : String
  main_duration_sec : Int
  cta_duration_sec : Int
  music_volume : ℚ

/-- An inbound JSON body as seen by pydantic: which of the model's six
fields the caller supplied.  (A single-clip style body simply leaves the
fields it does not know about unset.) -/
structure RawMergeBody where
  main_video_url : Option String
  cta_video_url : Option String
  audio_url : Option String
  main_duration_sec : Option Int
  cta_duration_sec : Option Int
  music_volume : Option ℚ

/-- Pydantic validation of a body against `MergeRequest`: the three URL
fields are required (a missing one rejects the request before `merge`
runs); `main_duration_sec` and `cta_duration_sec` default to 4 and
`music_volume` to 0.15 (app.py lines 25-27). -/
def parseMergeRequest (b : RawMergeBody) : Option MergeRequest :=
  match b.main_video_url, b.cta_video_url, b.audio_url with
  | some mv, some cv, some av =>
      some { main_video_url := mv, cta_video_url := cv, audio_url := av,
             main_duration_sec := b.main_duration_sec.getD 4,
             cta_duration_sec := b.cta_duration_sec.getD 4,
             music_volume := b.music_volume.getD (15/100) }
  | _, _, _ => none

/-- `max(1, min(int(x), 58))` (app.py lines 119-120). -/
def clampDuration (d : Int) : Int := max 1 (min d 58)

/-- `max(0.0, min(float(x), 1.0))` (app.py line 121). -/
def clampVolume (v : ℚ) : ℚ := max 0 (min v 1)

/-- `fade_duration = 1.1` (app.py line 52). -/
def fade_duration : ℚ := 11/10

/-- `total_duration = main_dur + cta_dur` (app.py line 53). -/
def total_duration (main_dur cta_dur : Int) : Int := main_dur + cta_dur

/-- `fade_offset = max(0.7, main_dur - fade_duration)` (app.py line 54). -/
def fade_offset (main_dur : Int) : ℚ := max (7/10) ((main_dur : ℚ) - fade_duration)

/-- The argument list built by `_run_ffmpeg_two_videos` (app.py lines
56-81).  `showF` renders a float the way Python's f-string does. -/
def ffmpegCmdTwoVideos (showF : ℚ → String) (main_video cta_video audio_in out_mp4 : String)
    (main_dur cta_dur : Int) (volume : ℚ) : List String :=
  ["ffmpeg", "-y",
   "-i", main_video,
   "-stream_loop", "-1", "-i", cta_video,
   "-stream_loop", "-1", "-i", audio_in,
   "-filter_complex",
   "[0:v]scale=1080:1920:flags=bicubic,fps=30,format=yuv420p[v0];"
     ++ "[1:v]scale=1080:1920:flags=bicubic,fps=30,format=yuv420p[v1];"
     ++ "[v0][v1]xfade=transition=fade:duration=" ++ showF fade_duration
     ++ ":offset=" ++ showF (fade_offset main_dur) ++ "[v];"
     ++ "[2:a]volume=" ++ showF volume ++ "[a]",
   "-map", "[v]",
   "-map", "[a]",
   "-t", toString (total_duration main_dur cta_dur),
   "-c:v", "libx264",
   "-preset", "ultrafast",
   "-crf", "28",
   "-pix_fmt", "yuv420p",
   "-c:a", "aac",
   "-b:a", "128k",
   "-shortest",
   out_mp4]

/-- Claim C1: for every caller-supplied duration the clamped value lies in
[1, 58] and for every caller-supplied volume the clamped value lies in
[0, 1].  The clamps are total functions, so out-of-range inputs are
reshaped, never rejected (app.py lines 119-121). -/
theorem clamped_values_in_range (d : Int) (v : ℚ) :
    1 ≤ clampDuration d ∧ clampDuration d ≤ 58 ∧
    0 ≤ clampVolume v ∧ clampVolume v ≤ 1 := by
  refine ⟨?_, ?_, ?_, ?_⟩
  · unfold clampDuration; omega
  · unfold clampDuration; omega
  · exact le_max_left 0 _
  · exact max_le (by norm_num) (min_le_right _ _)

/-- Claim C2: for every main duration the pipeline can pass (the clamps
guarantee `1 ≤ main_dur`), `fade_offset` is non-negative and does not
exceed the main duration, and whenever `main_dur - fade_duration` falls
to the 0.7 floor or below, `fade_offset` is exactly the floor
(app.py line 54). -/
theorem fade_offset_in_bounds (m : Int) (h : 1 ≤ m) :
    0 ≤ fade_offset m ∧ fade_offset m ≤ (m : ℚ) ∧
    ((m : ℚ) - fade_duration ≤ 7/10 → fade_offset m = 7/10) := by
  have hm : (1 : ℚ) ≤ (m : ℚ) := by exact_mod_cast h
  unfold fade_offset fade_duration
  refine ⟨le_trans (by norm_num) (le_max_left _ _), max_le (by linarith) (by linarith), ?_⟩
  intro hfloor
  exact max_eq_left hfloor

/-- Concrete instance of `fade_offset_in_bounds` at the shortest clamped
main duration, 1 second, where the floor case is active. -/
theorem fade_offset_in_bounds_witness :
    0 ≤ fade_offset 1 ∧ fade_offset 1 ≤ ((1 : Int) : ℚ) ∧
    (((1 : Int) : ℚ) - fade_duration ≤ 7/10 → fade_offset 1 = 7/10) :=
  fade_offset_in_bounds 1 (by norm_num)

/-- Claim C10: with clamped durations (both at least 1 second) the
crossfade fits inside the output window:
`fade_offset + fade_duration ≤ total_duration` with `fade_duration = 1.1`
and floor 0.7 (app.py lines 52-54, 72, 119-120). -/
theorem crossfade_fits_in_output (m c : Int) (hm : 1 ≤ m) (hc : 1 ≤ c) :
    fade_offset m + fade_duration ≤ ((total_duration m c : Int) : ℚ) := by
  have hm1 : (1 : ℚ) ≤ (m : ℚ) := by exact_mod_cast hm
  have hc1 : (1 : ℚ) ≤ (c : ℚ) := by exact_mod_cast hc
  unfold fade_offset fade_duration total_duration
  rcases max_cases ((7 : ℚ)/10) ((m : ℚ) - 11/10) with ⟨heq, _⟩ | ⟨heq, _⟩ <;>
    rw [heq] <;> push_cast <;> linarith

/-- Concrete instance of `crossfade_fits_in_output` at the shortest
clamped durations: offset 0.7 plus fade 1.1 is 1.8 ≤ 2. -/
theorem crossfade_fits_in_output_witness :
    fade_offset 1 + fade_duration ≤ ((total_duration 1 1 : Int) : ℚ) :=
  crossfade_fits_in_output 1 1 (by norm_num) (by norm_num)

/-- Claim C4: the two-video invocation normalizes both video streams to
1080x1920 at 30 fps in yuv420p, crossfades them with duration
`fade_duration` at `fade_offset`, opens the audio input with indefinite
looping and gain-adjusts it by `volume`, and caps the output length with
`-t total_duration` where `total_duration = main_dur + cta_dur`
(app.py lines 52-81). -/
theorem ffmpeg_two_videos_cmd_shape (showF : ℚ → String) (mv cv ai om : String)
    (md cd : Int) (vol : ℚ) :
    (∃ p t, p ++ ["-filter_complex",
        "[0:v]scale=1080:1920:flags=bicubic,fps=30,format=yuv420p[v0];"
          ++ "[1:v]scale=1080:1920:flags=bicubic,fps=30,format=yuv420p[v1];"
          ++ "[v0][v1]xfade=transition=fade:duration=" ++ showF fade_duration
          ++ ":offset=" ++ showF (fade_offset md) ++ "[v];"
          ++ "[2:a]volume=" ++ showF vol ++ "[a]"] ++ t =
        ffmpegCmdTwoVideos showF mv cv ai om md cd vol) ∧
    (∃ p t, p ++ ["-stream_loop", "-1", "-i", ai] ++ t =
        ffmpegCmdTwoVideos showF mv cv ai om md cd vol) ∧
    (∃ p t, p ++ ["-t", toString (total_duration md cd)] ++ t =
        ffmpegCmdTwoVideos showF mv cv ai om md cd vol) ∧
    total_duration md cd = md + cd := by
  refine ⟨⟨["ffmpeg", "-y", "-i", mv, "-stream_loop", "-1", "-i", cv,
            "-stream_loop", "-1", "-i", ai], _, rfl⟩,
          ⟨["ffmpeg", "-y", "-i", mv, "-stream_loop", "-1", "-i", cv], _, rfl⟩,
          ⟨["ffmpeg", "-y", "-i", mv, "-stream_loop", "-1", "-i", cv,
            "-stream_loop", "-1", "-i", ai, "-filter_complex",
            "[0:v]scale=1080:1920:flags=bicubic,fps=30,format=yuv420p[v0];"
              ++ "[1:v]scale=1080:1920:flags=bicubic,fps=30,format=yuv420p[v1];"
              ++ "[v0][v1]xfade=transition=fade:duration=" ++ showF fade_duration
              ++ ":offset=" ++ showF (fade_offset md) ++ "[v];"
              ++ "[2:a]volume=" ++ showF vol ++ "[a]",
            "-map", "[v]", "-map", "[a]"], _, rfl⟩,
          rfl⟩

/-- The request's view of the filesystem: `tempDir` is `some files` while
the per-request working directory exists (with the names written into it
so far) and `none` when it is absent. -/
structure FsState where
  tempDir : Option (List String)

/-- `tempfile.TemporaryDirectory()` entry: the directory is created empty. -/
def mkdtemp (s : FsState) : FsState := { s with tempDir := some [] }

/-- `TemporaryDirectory.__exit__`: the directory and everything in it is
removed. -/
def rmtree (s : FsState) : FsState := { s with tempDir := none }

/-- Writing a file into the working directory. -/
def writeFile (name : String) (s : FsState) : FsState :=
  { s with tempDir := s.tempDir.map (fun fls => fls ++ [name]) }

def mainVideoFile : String := "main.mp4"

def ctaVideoFile : String := "cta.mp4"

def audioFile : String := "music.mp3"

def outFile : String := "out.mp4"

/-- Outcome of one `requests.get` call: the connection may fail
(`requests` raises a transport exception), the server may answer a
non-success status (`raise_for_status` raises `HTTPError`), or the body
streams through. -/
inductive FetchOutcome where
  | success
  | transportError (msg : String)
  | remoteError (msg : String)

/-- `_download` (app.py lines 30-36): on success the destination file is
written; on either failure the exception propagates and, because
`raise_for_status` runs before `open`, no file is created. -/
def download (_url : String) (outPath : String) (o : FetchOutcome) (s : FsState) :
    Except String Unit × FsState :=
  match o with
  | FetchOutcome.success => (Except.ok (), writeFile outPath s)
  | FetchOutcome.transportError m => (Except.error m, s)
  | FetchOutcome.remoteError m => (Except.error m, s)

/-- What `subprocess.run` reported for the ffmpeg invocation. -/
structure ProcResult where
  returncode : Int
  stderr : String

/-- Python's `s[-n:]`: the last `n` characters of `s` (all of `s` when it
is shorter than `n`). -/
def strLast (n : Nat) (s : String) : String :=
  String.mk (s.data.drop (s.data.length - n))

/-- `_run_ffmpeg_two_videos` (app.py lines 39-86): builds the command of
`ffmpegCmdTwoVideos`, runs ffmpeg once, and on a non-zero exit code
raises `RuntimeError` carrying the last 2000 characters of stderr;
on success the output file exists. -/
def runFfmpegTwoVideos (showF : ℚ → String) (main_video cta_video audio_in out_mp4 : String)
    (main_dur cta_dur : Int) (volume : ℚ) (p : ProcResult) (s : FsState) :
    Except String Unit × FsState :=
  let _cmd := ffmpegCmdTwoVideos showF main_video cta_video audio_in out_mp4
    main_dur cta_dur volume
  if p.returncode ≠ 0 then
    (Except.error ("FFmpeg failed:\n" ++ strLast 2000 p.stderr), s)
  else
    (Except.ok (), writeFile out_mp4 s)

/-- The deployment configuration read from the environment at startup
(app.py lines 11-13): `none` models an unset (or empty) variable. -/
structure Config where
  cloudName : Option String
  uploadPreset : Option String
  folder : String

/-- Outcome of the upload POST: the connection may fail, or the server
answers with a status (success or not) and a parsed JSON object, modelled
as a key/value list. -/
inductive UploadOutcome (α : Type) where
  | connectionError (msg : String)
  | response (okStatus : Bool) (json : List (String × α))

def secureUrlKey : String := "secure_url"

def missingConfigMsg : String :=
  "Missing CLOUDINARY_CLOUD_NAME or CLOUDINARY_UPLOAD_PRESET env vars"

/-- Stand-in for the `requests.HTTPError` text `raise_for_status` raises
on a non-success upload status. -/
def uploadHttpErrorMsg : String := "upload HTTP status error"

/-- `_upload_to_cloudinary` (app.py lines 89-108): fail fast when either
config value is missing; then POST; a non-success status raises; a
success response without `secure_url` raises `RuntimeError`; otherwise
the field's value is returned.  `showJ` renders the parsed JSON object
the way the f-string on line 107 does. -/
def uploadToCloudinary {α : Type} (showJ : List (String × α) → String)
    (cfg : Config) (u : UploadOutcome α) : Except String α :=
  match cfg.cloudName, cfg.uploadPreset with
  | some _, some _ =>
    match u with
    | UploadOutcome.connectionError m => Except.error m
    | UploadOutcome.response okStatus j =>
      if okStatus then
        match j.lookup secureUrlKey with
        | some v => Except.ok v
        | none => Except.error ("Cloudinary upload missing secure_url: " ++ showJ j)
      else Except.error uploadHttpErrorMsg
  | _, _ => Except.error missingConfigMsg

/-- One oracle per external call the `merge` handler makes, in order:
the three downloads, the ffmpeg subprocess, the upload POST. -/
structure Oracles (α : Type) where
  mainFetch : FetchOutcome
  ctaFetch : FetchOutcome
  audioFetch : FetchOutcome
  proc : ProcResult
  upload : UploadOutcome α

/-- The FastAPI `HTTPException` raised on line 152. -/
structure HttpError where
  status_code : Int
  detail : String

/-- What one run of the `merge` handler did: how many times ffmpeg ran,
whether the upload POST was attempted, and the HTTP-level outcome. -/
structure MergeTrace (α : Type) where
  ffmpegRuns : Nat
  uploadAttempted : Bool
  result : Except HttpError α

/-- The body of the `with tempfile.TemporaryDirectory()` block (app.py
lines 123-146): download the three inputs, run ffmpeg, upload.  The
first raised exception aborts the rest.  Returns the body's outcome
together with the ffmpeg-run count and the upload-attempt flag. -/
def mergeBodySteps {α : Type} (showF : ℚ → String) (showJ : List (String × α) → String)
    (cfg : Config) (req : MergeRequest) (o : Oracles α)
    (main_duration cta_duration : Int) (volume : ℚ) (s : FsState) :
    (Except String α × Nat × Bool) × FsState :=
  match download req.main_video_url mainVideoFile o.mainFetch s with
  | (Except.error m, s1) => ((Except.error m, 0, false), s1)
  | (Except.ok _, s1) =>
    match download req.cta_video_url ctaVideoFile o.ctaFetch s1 with
    | (Except.error m, s2) => ((Except.error m, 0, false), s2)
    | (Except.ok _, s2) =>
      match download req.audio_url audioFile o.audioFetch s2 with
      | (Except.error m, s3) => ((Except.error m, 0, false), s3)
      | (Except.ok _, s3) =>
        match runFfmpegTwoVideos showF mainVideoFile ctaVideoFile audioFile outFile
            main_duration cta_duration volume o.proc s3 with
        | (Except.error m, s4) => ((Except.error m, 1, false), s4)
        | (Except.ok _, s4) =>
          ((uploadToCloudinary showJ cfg o.upload, 1, true), s4)

/-- The `try/except` of `merge` (app.py lines 113-152): a successful body
returns `{"final_url": url}`; any exception becomes
`HTTPException(status_code=500, detail=f"Merge failed: {e}")`. -/
def toTrace {α : Type} (b : Except String α × Nat × Bool) : MergeTrace α :=
  match b with
  | (Except.ok url, runs, up) =>
      { ffmpegRuns := runs, uploadAttempted := up, result := Except.ok url }
  | (Except.error m, runs, up) =>
      { ffmpegRuns := runs, uploadAttempted := up,
        result := Except.error { status_code := 500, detail := "Merge failed: " ++ m } }

/-- The `/merge` handler (app.py lines 111-152): clamp the caller's
values (lines 119-121), enter the temporary directory, run the body, and
leave the directory through `TemporaryDirectory.__exit__`, which removes
it on the success path and on every exception path alike. -/
def merge {α : Type} (showF : ℚ → String) (showJ : List (String × α) → String)
    (cfg : Config) (req : MergeRequest) (o : Oracles α) (s0 : FsState) :
    MergeTrace α × FsState :=
  let main_duration := clampDuration req.main_duration_sec
  let cta_duration := clampDuration req.cta_duration_sec
  let volume := clampVolume req.music_volume
  let r := mergeBodySteps showF showJ cfg req o main_duration cta_duration volume (mkdtemp s0)
  (toTrace r.1, rmtree r.2)

/-- The status code of a failed run, `none` for a successful one. -/
def resultStatus {α : Type} (t : MergeTrace α) : Option Int :=
  match t.result with
  | Except.ok _ => none
  | Except.error e => some e.status_code

/-- Claim C3: on every exit path of `merge` — success, fetch failure,
transcode failure, upload failure — the per-request working directory is
absent afterwards: `TemporaryDirectory.__exit__` runs whether the body
returns or raises (app.py lines 123-148), so no artifact outlives the
request. -/
theorem merge_removes_working_directory {α : Type} (showF : ℚ → String)
    (showJ : List (String × α) → String) (cfg : Config) (req : MergeRequest)
    (o : Oracles α) (s0 : FsState) :
    ((merge showF showJ cfg req o s0).2).tempDir = none := rfl

/-- Claim C5: when ffmpeg exits non-zero (and the three fetches
succeeded, so the transcode stage is reached), the run fails with the
`RuntimeError` carrying the last 2000 characters of stderr wrapped into
the 500 response, ffmpeg is invoked exactly once (no retry), and the
upload POST is never attempted (app.py lines 84-86, 136-146). -/
theorem ffmpeg_failure_aborts_pipeline {α : Type} (showF : ℚ → String)
    (showJ : List (String × α) → String) (cfg : Config) (req : MergeRequest)
    (o : Oracles α) (s0 : FsState)
    (hmain : o.mainFetch = FetchOutcome.success)
    (hcta : o.ctaFetch = FetchOutcome.success)
    (haudio : o.audioFetch = FetchOutcome.success)
    (hproc : o.proc.returncode ≠ 0) :
    (merge showF showJ cfg req o s0).1.result =
      Except.error
        { status_code := 500,
          detail := "Merge failed: " ++
            ("FFmpeg failed:\n" ++ strLast 2000 o.proc.stderr) } ∧
    (merge showF showJ cfg req o s0).1.uploadAttempted = false ∧
    (merge showF showJ cfg req o s0).1.ffmpegRuns = 1 := by
  simp [merge, mergeBodySteps, download, runFfmpegTwoVideos, toTrace,
    hmain, hcta, haudio, hproc]

def sampleFloatShow : ℚ → String := fun _ => "0.0"

def sampleJsonShow : List (String × String) → String := fun _ => "{}"

def sampleCloudName : String := "demo-cloud"

def samplePreset : String := "unsigned-preset-1"

def sampleFolder : String := "reels_with_music"

def sampleConfig : Config :=
  { cloudName := some sampleCloudName, uploadPreset := some samplePreset,
    folder := sampleFolder }

def sampleMainUrl : String := "https://example.com/main.mp4"

def sampleCtaUrl : String := "https://example.com/cta.mp4"

def sampleAudioUrl : String := "https://example.com/music.mp3"

def sampleRequest : MergeRequest :=
  { main_video_url := sampleMainUrl, cta_video_url := sampleCtaUrl,
    audio_url := sampleAudioUrl, main_duration_sec := 4, cta_duration_sec := 4,
    music_volume := 15/100 }

def sampleStderr : String := "ffmpeg: filter parse failure"

def emptyFs : FsState := { tempDir := none }

/-- Oracle run in which every fetch succeeds and ffmpeg exits 1. -/
def ffmpegFailOracles : Oracles String :=
  { mainFetch := FetchOutcome.success, ctaFetch := FetchOutcome.success,
    audioFetch := FetchOutcome.success,
    proc := { returncode := 1, stderr := sampleStderr },
    upload := UploadOutcome.response true [] }

/-- Concrete instance of `ffmpeg_failure_aborts_pipeline`: exit code 1
with a short stderr. -/
theorem ffmpeg_failure_aborts_pipeline_witness :
    (merge sampleFloatShow sampleJsonShow sampleConfig sampleRequest
        ffmpegFailOracles emptyFs).1.result =
      Except.error
        { status_code := 500,
          detail := "Merge failed: " ++
            ("FFmpeg failed:\n" ++ strLast 2000 ffmpegFailOracles.proc.stderr) } ∧
    (merge sampleFloatShow sampleJsonShow sampleConfig sampleRequest
        ffmpegFailOracles emptyFs).1.uploadAttempted = false ∧
    (merge sampleFloatShow sampleJsonShow sampleConfig sampleRequest
        ffmpegFailOracles emptyFs).1.ffmpegRuns = 1 :=
  ffmpeg_failure_aborts_pipeline sampleFloatShow sampleJsonShow sampleConfig
    sampleRequest ffmpegFailOracles emptyFs rfl rfl rfl (by decide)

/-- Claim C6: with the configuration present and a success upload status,
the publisher returns a URL exactly when the response carries
`secure_url`; when the field is absent it raises the explicit
missing-`secure_url` `RuntimeError` instead of crashing or returning a
malformed URL (app.py lines 103-108). -/
theorem upload_secure_url_iff {α : Type} (showJ : List (String × α) → String)
    (cn pr fo : String) (j : List (String × α)) (u : α) :
    (uploadToCloudinary showJ
        { cloudName := some cn, uploadPreset := some pr, folder := fo }
        (UploadOutcome.response true j) = Except.ok u ↔
      j.lookup secureUrlKey = some u) ∧
    (j.lookup secureUrlKey = none →
      uploadToCloudinary showJ
          { cloudName := some cn, uploadPreset := some pr, folder := fo }
          (UploadOutcome.response true j) =
        Except.error ("Cloudinary upload missing secure_url: " ++ showJ j)) := by
  cases h : j.lookup secureUrlKey <;> simp [uploadToCloudinary, h]

/-- Claim C7 counterexample: a fetch failure caused by a caller-supplied
bad URL (the server answers 404) surfaces with status 500, which is not
in the 400 class — the handler's single `except Exception` maps every
failure to 500 (app.py lines 150-152). -/
def badUrlOracles : Oracles String :=
  { mainFetch := FetchOutcome.remoteError "404 Client Error: Not Found",
    ctaFetch := FetchOutcome.success, audioFetch := FetchOutcome.success,
    proc := { returncode := 0, stderr := "" },
    upload := UploadOutcome.response true [] }

theorem merge_bad_url_not_400_class :
    resultStatus (merge sampleFloatShow sampleJsonShow sampleConfig sampleRequest
        badUrlOracles emptyFs).1 = some 500 ∧
    ¬ (400 ≤ (500 : Int) ∧ (500 : Int) < 500) :=
  ⟨rfl, by decide⟩

/-- Claim C7 as amended: the handler does not distinguish failure
classes — every failing run, whatever the failing stage or cause, is
reported with status code 500 (app.py lines 150-152). -/
theorem merge_failure_status_always_500 {α : Type} (showF : ℚ → String)
    (showJ : List (String × α) → String) (cfg : Config) (req : MergeRequest)
    (o : Oracles α) (s0 : FsState) :
    resultStatus (merge showF showJ cfg req o s0).1 = none ∨
    resultStatus (merge showF showJ cfg req o s0).1 = some 500 := by
  have h : ∀ b : Except String α × Nat × Bool,
      resultStatus (toTrace b) = none ∨ resultStatus (toTrace b) = some 500 := by
    intro b
    rcases b with ⟨out, runs, up⟩
    cases out <;> simp [toTrace, resultStatus]
  simpa [merge] using h (mergeBodySteps showF showJ cfg req o
    (clampDuration req.main_duration_sec) (clampDuration req.cta_duration_sec)
    (clampVolume req.music_volume) (mkdtemp s0)).1

/-- Claim C8 counterexample: a single-clip style body — one video
source, the audio source, a duration and a volume, no CTA video — is
rejected by validation (`cta_video_url` is a required field), so the
single-clip `MergeRequest` variant the claim describes is not
accepted. -/
def singleClipBody : RawMergeBody :=
  { main_video_url := some sampleMainUrl, cta_video_url := none,
    audio_url := some sampleAudioUrl, main_duration_sec := some 7,
    cta_duration_sec := none, music_volume := some (15/100) }

theorem single_clip_request_rejected :
    parseMergeRequest singleClipBody = none := rfl

/-- Claim C8 as amended: the merge operation accepts exactly the
two-clip shape — a body validates if and only if all three URL fields
(`main_video_url`, `cta_video_url`, `audio_url`) are present; there is
no single-clip variant and no mode selection, the pipeline always runs
two-video mode (app.py lines 21-27). -/
theorem merge_request_requires_two_videos (b : RawMergeBody) :
    (∃ r, parseMergeRequest b = some r) ↔
      (b.main_video_url.isSome = true ∧ b.cta_video_url.isSome = true ∧
       b.audio_url.isSome = true) := by
  rcases b with ⟨mv, cv, av, md, cd, vol⟩
  cases mv <;> cases cv <;> cases av <;> simp [parseMergeRequest]

/-- Claim C9 counterexample: with all three URLs present and the
durations omitted, the parsed request carries `main_duration_sec = 4`
and `cta_duration_sec = 4` (app.py lines 25-26), not the 7 and 3 the
claim states. -/
def noDurationsBody : RawMergeBody :=
  { main_video_url := some sampleMainUrl, cta_video_url := some sampleCtaUrl,
    audio_url := some sampleAudioUrl, main_duration_sec := none,
    cta_duration_sec := none, music_volume := none }

theorem merge_defaults_not_7_3 :
    (parseMergeRequest noDurationsBody).map
        (fun r => (r.main_duration_sec, r.cta_duration_sec)) = some (4, 4) ∧
    ((4 : Int), (4 : Int)) ≠ ((7 : Int), (3 : Int)) :=
  ⟨rfl, by decide⟩

/-- Claim C9 as amended: when the caller omits them, `main_duration_sec`
defaults to 4, `cta_duration_sec` defaults to 4 and `music_volume`
defaults to 0.15 (app.py lines 25-27). -/
theorem merge_request_default_values (mv cv av : String) :
    parseMergeRequest
        { main_video_url := some mv, cta_video_url := some cv,
          audio_url := some av, main_duration_sec := none,
          cta_duration_sec := none, music_volume := none } =
      some { main_video_url := mv, cta_video_url := cv, audio_url := av,
             main_duration_sec := 4, cta_duration_sec := 4,
             music_volume := 15/100 } := rfl

/-- Sanity check of the working-directory model (not a claim theorem):
on the all-success path the body populates the directory with the three
downloads and the transcode output before `__exit__` removes it. -/
def allOkOracles : Oracles String :=
  { mainFetch := FetchOutcome.success, ctaFetch := FetchOutcome.success,
    audioFetch := FetchOutcome.success, proc := { returncode := 0, stderr := "" },
    upload := UploadOutcome.response true [(secureUrlKey, sampleMainUrl)] }

theorem working_directory_populated_before_cleanup :
    (mergeBodySteps sampleFloatShow sampleJsonShow sampleConfig sampleRequest
        allOkOracles 4 4 (15/100) (mkdtemp emptyFs)).2.tempDir =
      some [mainVideoFile, ctaVideoFile, audioFile, outFile] := rfl

/-- Sanity check (not a claim theorem): the all-success run returns the
uploaded URL. -/
theorem merge_success_returns_url :
    (merge sampleFloatShow sampleJsonShow sampleConfig sampleRequest
        allOkOracles emptyFs).1.result = Except.ok sampleMainUrl := rfl
